import Mathlib

/-!
Verification of the MockLongRunningLangraphAgent repository: a shallow
embedding of `athena_mock.py` (the mock Athena job client), `agent.py`
(the LangGraph polling orchestrator: submit → poll → fetch with a
conditional router), and `agentcore_agent.py` (the hosted `invoke`
entrypoint), together with theorems settling the specification's claims
about polling counts, termination, error propagation, result
materialization, and the mock client's status monotonicity.
-/

set_option maxHeartbeats 1000000

namespace MockAgent

/-! ### athena_mock.py: QueryStatus and rows -/

/-- `QueryStatus` enum from `athena_mock.py`. -/
inductive QueryStatus where
  | RUNNING
  | SUCCEEDED
  | FAILED
deriving DecidableEq, Repr

/-- The `.value` string of each enum member. -/
def QueryStatus.value : QueryStatus → String
  | .RUNNING => "RUNNING"
  | .SUCCEEDED => "SUCCEEDED"
  | .FAILED => "FAILED"

/-- One result row of the mock client (`{"id": .., "name": .., "value": ..}`). -/
structure Row where
  id : Nat
  name : String
  value : Nat
deriving DecidableEq, Repr

/-- The hard-coded mock results generated in `get_query_status`. -/
def mockRows : List Row :=
  [⟨1, "Alice", 100⟩, ⟨2, "Bob", 200⟩, ⟨3, "Charlie", 300⟩]

/-! ### athena_mock.py: AthenaQuery client state and operations

Wall-clock time (`time.time()`) is passed explicitly as an integer `now`
argument to each operation; `results: None` is modelled as `Option`.
Python exceptions (`ValueError`) are modelled with `Except String`. -/

/-- The per-query record stored in `self.queries[query_id]`. -/
structure QueryRec where
  sql : String
  status : QueryStatus
  start_time : Int
  sleep_duration : Int
  results : Option (List Row)
deriving Repr

/-- The `AthenaQuery` mock client: its `queries` dict, keyed by query id. -/
structure AthenaQuery where
  queries : String → Option QueryRec

/-- The freshly constructed client (`__init__`): an empty `queries` dict. -/
def AthenaQuery.init : AthenaQuery := ⟨fun _ => none⟩

/-- Dict assignment `self.queries[query_id] = rec`. -/
def AthenaQuery.set (c : AthenaQuery) (query_id : String) (rec : QueryRec) :
    AthenaQuery :=
  ⟨fun q => if q = query_id then some rec else c.queries q⟩

/-- `ExecuteSQL`: store a fresh RUNNING record and return the id. The id
(`uuid.uuid4()` in the source) is passed in explicitly. -/
def AthenaQuery.ExecuteSQL (c : AthenaQuery) (query_id : String) (sql : String)
    (now : Int) (sleep_seconds : Int := 5) : String × AthenaQuery :=
  (query_id, c.set query_id
    { sql := sql
      status := .RUNNING
      start_time := now
      sleep_duration := sleep_seconds
      results := none })

/-- `get_query_status`: raise if the id is unknown; flip the record to
SUCCEEDED (and materialize `mockRows`) once elapsed time reaches the sleep
duration; return the stored status. -/
def AthenaQuery.get_query_status (c : AthenaQuery) (query_id : String)
    (now : Int) : Except String (QueryStatus × AthenaQuery) :=
  match c.queries query_id with
  | none => .error ("Query " ++ query_id ++ " not found")
  | some q =>
    let elapsed := now - q.start_time
    if q.sleep_duration ≤ elapsed then
      let q' := { q with status := .SUCCEEDED, results := some mockRows }
      .ok (q'.status, c.set query_id q')
    else
      .ok (q.status, c)

/-- `get_query_results`: raise if the id is unknown or the stored status is
not SUCCEEDED; otherwise return the stored `results` field (which is
`None`/`none` if never populated). The function does not modify the client. -/
def AthenaQuery.get_query_results (c : AthenaQuery) (query_id : String) :
    Except String (Option (List Row)) :=
  match c.queries query_id with
  | none => .error ("Query " ++ query_id ++ " not found")
  | some q =>
    if q.status ≠ QueryStatus.SUCCEEDED then
      .error ("Query " ++ query_id ++ " not yet completed")
    else
      .ok q.results

/-! ### agent.py / agentcore_agent.py: AgentState and graph nodes

The two files define the identical state machine (they differ only in
sleep durations and logging). The job client's observable behavior during
one graph execution is abstracted as a `ClientBehavior`: what `ExecuteSQL`
returns (or raises), what the k-th `get_query_status` call reports, and
what `get_query_results` returns. -/

/-- The `AgentState` TypedDict. `analysis_result: dict` starts as the empty
dict `{}`, modelled as `none`. -/
structure AgentState where
  sql_query : String
  query_execution_id : String
  athena_status : String
  retry_count : Nat
  max_retries : Nat
  analysis_result : Option (Nat × String × List Row)
  error : String
deriving Repr

/-- Observable behavior of the job client during one graph execution:
the result of the submission, the status reported on the k-th status call
(1-based), and the rows returned by `get_query_results`. -/
structure ClientBehavior where
  submitResult : Except String String
  statusAt : Nat → QueryStatus
  fetchRows : List Row

/-- Node A `submit_athena_query`: submit and record the execution id,
status RUNNING, retry_count 0. An exception from `ExecuteSQL` propagates. -/
def submit_athena_query (beh : ClientBehavior) (state : AgentState) :
    Except String AgentState :=
  match beh.submitResult with
  | .error e => .error e
  | .ok query_id =>
    .ok { state with
            query_execution_id := query_id
            athena_status := "RUNNING"
            retry_count := 0 }

/-- Node B `poll_athena_status`: perform one status check (this is the
`state.retry_count + 1`-th call) and record its value, incrementing
`retry_count`. -/
def poll_athena_status (beh : ClientBehavior) (state : AgentState) :
    AgentState :=
  let status := beh.statusAt (state.retry_count + 1)
  { state with
      athena_status := status.value
      retry_count := state.retry_count + 1 }

/-- Node C `fetch_athena_results`: fetch the rows and build the analysis
dict `{"total_rows": len(results), "summary": ..., "data": results}`. -/
def fetch_athena_results (beh : ClientBehavior) (state : AgentState) :
    AgentState :=
  let results := beh.fetchRows
  { state with
      analysis_result := some
        (results.length,
         "Retrieved " ++ toString results.length ++ " rows",
         results) }

/-- The three labels the conditional router can return. -/
inductive Route where
  | fetch_results
  | poll_status
  | end_
deriving DecidableEq, Repr

/-- The conditional edge `should_continue_polling`. -/
def should_continue_polling (state : AgentState) : Route :=
  if state.athena_status = "SUCCEEDED" then .fetch_results
  else if state.athena_status = "FAILED" then .end_
  else if state.max_retries ≤ state.retry_count then .end_
  else .poll_status

/-- The result of running the graph from the `poll_status` node: the
post-poll states in order (one per status check performed), the final
graph state, and the number of `get_query_results` calls. -/
structure PollRun where
  trace : List AgentState
  final : AgentState
  fetchCalls : Nat
deriving Repr

/-- Execution of the graph's poll loop from node `poll_status`: run node B,
evaluate the router, and either fetch-then-END, END, or loop back to
node B. Terminates because the router only loops while
`retry_count < max_retries` and each poll increments `retry_count`. -/
def runPollLoop (beh : ClientBehavior) (state : AgentState) : PollRun :=
  match h : should_continue_polling (poll_athena_status beh state) with
  | .fetch_results =>
    ⟨[poll_athena_status beh state],
     fetch_athena_results beh (poll_athena_status beh state), 1⟩
  | .end_ =>
    ⟨[poll_athena_status beh state], poll_athena_status beh state, 0⟩
  | .poll_status =>
    let r := runPollLoop beh (poll_athena_status beh state)
    ⟨poll_athena_status beh state :: r.trace, r.final, r.fetchCalls⟩
termination_by state.max_retries - state.retry_count
decreasing_by
  simp only [should_continue_polling,
    show ∀ b s, (poll_athena_status b s).retry_count = s.retry_count + 1
      from fun _ _ => rfl,
    show ∀ b s, (poll_athena_status b s).max_retries = s.max_retries
      from fun _ _ => rfl] at h ⊢
  split at h
  · exact absurd h (by simp)
  · split at h
    · exact absurd h (by simp)
    · split at h
      · exact absurd h (by simp)
      · omega

/-- One full graph execution (`app.invoke` / `graph.invoke`): node A, then
the poll loop. An exception from submission propagates out; the trace and
fetch-call count are empty/zero in that case, and submission itself is
attempted exactly once. -/
structure GraphRun where
  outcome : Except String AgentState
  submitCalls : Nat
  trace : List AgentState
  fetchCalls : Nat
deriving Repr

/-- Run the compiled graph on an initial state. -/
def runGraph (beh : ClientBehavior) (init : AgentState) : GraphRun :=
  match submit_athena_query beh init with
  | .error e => ⟨.error e, 1, [], 0⟩
  | .ok s1 =>
    let r := runPollLoop beh s1
    ⟨.ok r.final, 1, r.trace, r.fetchCalls⟩

/-- The number of status checks one graph run performs. -/
def GraphRun.statusChecks (g : GraphRun) : Nat := g.trace.length

/-! ### agentcore_agent.py: the hosted `invoke` entrypoint -/

/-- The request payload of the `invoke` entrypoint. A key absent from the
dict is `none`; `sql_query` and `prompt` may be present but empty. -/
structure Payload where
  sql_query : Option String
  prompt : Option String
  max_retries : Option Nat
deriving Repr

/-- Python truthiness of `payload.get("sql_query")`: `None` and the empty
string are falsy. -/
def pyTruthy : Option String → Bool
  | none => false
  | some s => s ≠ ""

/-- `payload.get("sql_query") or payload.get("prompt", "SELECT * FROM users
LIMIT 10")`. -/
def extractSqlQuery (payload : Payload) : String :=
  if pyTruthy payload.sql_query then payload.sql_query.getD ""
  else payload.prompt.getD "SELECT * FROM users LIMIT 10"

/-- `payload.get("max_retries", int(os.getenv("MAX_RETRIES", "20")))`; the
environment variable (parsed as an integer when set) is `envMaxRetries`. -/
def extractMaxRetries (payload : Payload) (envMaxRetries : Option Nat) : Nat :=
  payload.max_retries.getD (envMaxRetries.getD 20)

/-- The `initial_state` dict built by `invoke` (and, with its fixed query
and `max_retries = 50`, by `agent.py.__main__`). -/
def initialState (sql_query : String) (max_retries : Nat) : AgentState :=
  { sql_query := sql_query
    query_execution_id := ""
    athena_status := ""
    retry_count := 0
    max_retries := max_retries
    analysis_result := none
    error := "" }

/-- The agent state right after node A has run on `initialState sql_query
max_retries` with a successful submission returning `query_id`. -/
def postSubmitState (query_id sql_query : String) (max_retries : Nat) :
    AgentState :=
  { sql_query := sql_query
    query_execution_id := query_id
    athena_status := "RUNNING"
    retry_count := 0
    max_retries := max_retries
    analysis_result := none
    error := "" }

/-- The response dict of `invoke`: each branch populates a different set of
keys, so absent keys are `none`. -/
structure InvokeResult where
  status : String
  query_id : Option String
  polls : Option Nat
  result : Option (Nat × String × List Row)
  error : Option String
deriving Repr

/-- The `invoke` entrypoint: extract `sql_query` and `max_retries` from the
payload, run the graph, and shape the response; any exception is caught and
returned as a `status = "error"` response. -/
def invoke (beh : ClientBehavior) (payload : Payload)
    (envMaxRetries : Option Nat) : InvokeResult :=
  let sql_query := extractSqlQuery payload
  let max_retries := extractMaxRetries payload envMaxRetries
  let run := runGraph beh (initialState sql_query max_retries)
  match run.outcome with
  | .error e => ⟨"error", none, none, none, some e⟩
  | .ok final_state =>
    if final_state.athena_status = "SUCCEEDED" then
      ⟨"success", some final_state.query_execution_id,
       some final_state.retry_count, final_state.analysis_result, none⟩
    else if final_state.athena_status = "FAILED" then
      ⟨"failed", some final_state.query_execution_id,
       some final_state.retry_count, none, some "Query execution failed"⟩
    else
      ⟨"timeout", some final_state.query_execution_id,
       some final_state.retry_count, none,
       some ("Query timed out after " ++ toString max_retries
             ++ " polling attempts")⟩

/-! ### Step relation and reachability for the mock client

`ExecuteSQL` is always called with a fresh `uuid.uuid4()` identifier, so a
submission step requires the id to be absent from the `queries` dict;
`get_query_status` steps mutate the client; `get_query_results` does not
modify the client. -/

/-- One observable state change of the mock client. -/
inductive ClientStep : AthenaQuery → AthenaQuery → Prop where
  | exec (c : AthenaQuery) (query_id sql : String) (now sleep_seconds : Int)
      (hfresh : c.queries query_id = none) :
      ClientStep c (c.ExecuteSQL query_id sql now sleep_seconds).2
  | status (c : AthenaQuery) (query_id : String) (now : Int)
      (st : QueryStatus) (c' : AthenaQuery)
      (hcall : c.get_query_status query_id now = .ok (st, c')) :
      ClientStep c c'

/-- Zero or more client steps. -/
def ClientSteps : AthenaQuery → AthenaQuery → Prop :=
  Relation.ReflTransGen ClientStep

/-- Clients reachable from a freshly constructed `AthenaQuery()`. -/
def Reachable (c : AthenaQuery) : Prop :=
  ClientSteps AthenaQuery.init c

/-- The data-model invariant of the mock client: no stored job is FAILED
(the mock never fails a job), a SUCCEEDED job stores the mock rows, and a
RUNNING job stores no results. -/
def ClientInv (c : AthenaQuery) : Prop :=
  ∀ qid q, c.queries qid = some q →
    q.status ≠ QueryStatus.FAILED ∧
    (q.status = QueryStatus.SUCCEEDED → q.results = some mockRows) ∧
    (q.status = QueryStatus.RUNNING → q.results = none)

/-- The states in which the router stops polling because the backend
declared the job terminal. -/
def isTerminalState (s : AgentState) : Prop :=
  s.athena_status = "SUCCEEDED" ∨ s.athena_status = "FAILED"

instance (s : AgentState) : Decidable (isTerminalState s) := by
  unfold isTerminalState; infer_instance

/-! ### Concrete behaviors and clients used by witnesses -/

/-- A job client whose status calls all report RUNNING. -/
def behAllRunning : ClientBehavior :=
  ⟨.ok "qid-1", fun _ => .RUNNING, []⟩

/-- A job client that reports SUCCEEDED on the first status call. -/
def behImmediateSuccess : ClientBehavior :=
  ⟨.ok "qid-2", fun _ => .SUCCEEDED, mockRows⟩

/-- A job client that reports RUNNING on the first call and FAILED on the
second. -/
def behFailSecond : ClientBehavior :=
  ⟨.ok "qid-3", fun k => if k ≤ 1 then .RUNNING else .FAILED, mockRows⟩

/-- A job client that reports SUCCEEDED on the first call with no rows. -/
def behEmptySuccess : ClientBehavior :=
  ⟨.ok "qid-4", fun _ => .SUCCEEDED, []⟩

/-- A job client whose submission raises. -/
def behSubmitError : ClientBehavior :=
  ⟨.error "boom", fun _ => .RUNNING, []⟩

/-- A client holding one just-submitted query `"id1"` (duration 5, started
at time 0). -/
def clientOne : AthenaQuery :=
  (AthenaQuery.init.ExecuteSQL "id1" "SELECT 1" 0 5).2

/-- `clientOne` after a status check at time 10 has flipped `"id1"` to
SUCCEEDED. -/
def clientOneDone : AthenaQuery :=
  clientOne.set "id1"
    { sql := "SELECT 1"
      status := .SUCCEEDED
      start_time := 0
      sleep_duration := 5
      results := some mockRows }

/-! ### Basic lemmas about the nodes and the router -/

@[simp] theorem poll_retry_count (beh : ClientBehavior) (s : AgentState) :
    (poll_athena_status beh s).retry_count = s.retry_count + 1 := rfl

@[simp] theorem poll_max_retries (beh : ClientBehavior) (s : AgentState) :
    (poll_athena_status beh s).max_retries = s.max_retries := rfl

@[simp] theorem poll_status_field (beh : ClientBehavior) (s : AgentState) :
    (poll_athena_status beh s).athena_status
      = (beh.statusAt (s.retry_count + 1)).value := rfl

@[simp] theorem fetch_retry_count (beh : ClientBehavior) (s : AgentState) :
    (fetch_athena_results beh s).retry_count = s.retry_count := rfl

@[simp] theorem fetch_max_retries (beh : ClientBehavior) (s : AgentState) :
    (fetch_athena_results beh s).max_retries = s.max_retries := rfl

@[simp] theorem fetch_status_field (beh : ClientBehavior) (s : AgentState) :
    (fetch_athena_results beh s).athena_status = s.athena_status := rfl

@[simp] theorem fetch_analysis (beh : ClientBehavior) (s : AgentState) :
    (fetch_athena_results beh s).analysis_result
      = some (beh.fetchRows.length,
              "Retrieved " ++ toString beh.fetchRows.length ++ " rows",
              beh.fetchRows) := rfl

theorem value_eq_succeeded_iff (st : QueryStatus) :
    st.value = "SUCCEEDED" ↔ st = .SUCCEEDED := by
  cases st <;> simp [QueryStatus.value]

theorem value_eq_failed_iff (st : QueryStatus) :
    st.value = "FAILED" ↔ st = .FAILED := by
  cases st <;> simp [QueryStatus.value]

theorem router_eq_fetch_iff (s : AgentState) :
    should_continue_polling s = .fetch_results ↔
      s.athena_status = "SUCCEEDED" := by
  unfold should_continue_polling
  split
  · simp [*]
  · split
    · simp_all
    · split <;> simp_all

theorem router_eq_end_iff (s : AgentState) :
    should_continue_polling s = .end_ ↔
      s.athena_status ≠ "SUCCEEDED" ∧
      (s.athena_status = "FAILED" ∨ s.max_retries ≤ s.retry_count) := by
  unfold should_continue_polling
  split
  · simp_all
  · split
    · simp_all
    · split <;> simp_all

theorem router_eq_poll_iff (s : AgentState) :
    should_continue_polling s = .poll_status ↔
      s.athena_status ≠ "SUCCEEDED" ∧ s.athena_status ≠ "FAILED" ∧
      s.retry_count < s.max_retries := by
  unfold should_continue_polling
  split
  · simp_all
  · split
    · simp_all
    · split <;> simp_all [Nat.lt_iff_add_one_le, Nat.not_le]

/-! ### One-step unfoldings of the poll loop -/

theorem runPollLoop_eq_fetch (beh : ClientBehavior) (s : AgentState)
    (h : should_continue_polling (poll_athena_status beh s) = .fetch_results) :
    runPollLoop beh s =
      ⟨[poll_athena_status beh s],
       fetch_athena_results beh (poll_athena_status beh s), 1⟩ := by
  rw [runPollLoop]
  split <;> simp_all

theorem runPollLoop_eq_end (beh : ClientBehavior) (s : AgentState)
    (h : should_continue_polling (poll_athena_status beh s) = .end_) :
    runPollLoop beh s =
      ⟨[poll_athena_status beh s], poll_athena_status beh s, 0⟩ := by
  rw [runPollLoop]
  split <;> simp_all

theorem runPollLoop_eq_poll (beh : ClientBehavior) (s : AgentState)
    (h : should_continue_polling (poll_athena_status beh s) = .poll_status) :
    runPollLoop beh s =
      ⟨poll_athena_status beh s
         :: (runPollLoop beh (poll_athena_status beh s)).trace,
       (runPollLoop beh (poll_athena_status beh s)).final,
       (runPollLoop beh (poll_athena_status beh s)).fetchCalls⟩ := by
  rw [runPollLoop]
  split <;> simp_all

/-! ### Closed forms of the poll loop under specific client behaviors -/

/-- When every status call reports RUNNING, the loop polls until the retry
budget is exhausted: it stops with `retry_count = max max_retries
(retry_count₀ + 1)` (the first poll is unconditional), performs that many
checks, ends with status string RUNNING, and never fetches. -/
theorem pollLoop_all_running (beh : ClientBehavior)
    (hb : ∀ k, beh.statusAt k = .RUNNING) (s : AgentState) :
    (runPollLoop beh s).final.retry_count
        = max s.max_retries (s.retry_count + 1) ∧
    (runPollLoop beh s).trace.length
        = max s.max_retries (s.retry_count + 1) - s.retry_count ∧
    (runPollLoop beh s).final.athena_status = "RUNNING" ∧
    (runPollLoop beh s).final.max_retries = s.max_retries ∧
    (runPollLoop beh s).fetchCalls = 0 := by
  induction s using runPollLoop.induct beh with
  | case1 s h =>
    rw [router_eq_fetch_iff] at h
    simp [hb] at h
    exact absurd h (by decide)
  | case2 s h =>
    rw [router_eq_end_iff] at h
    simp only [poll_status_field, poll_retry_count, poll_max_retries, hb] at h
    have hbudget : s.max_retries ≤ s.retry_count + 1 := by
      rcases h.2 with h' | h'
      · exact absurd h' (by decide)
      · exact h'
    rw [runPollLoop_eq_end beh s (by
      rw [router_eq_end_iff]
      simp [hb, hbudget]
      decide)]
    refine ⟨?_, ?_, ?_, ?_, rfl⟩
    · simp; omega
    · simp; omega
    · simp [hb, QueryStatus.value]
    · simp
  | case3 s h ih =>
    have hlt : s.retry_count + 1 < s.max_retries := by
      rw [router_eq_poll_iff] at h
      simpa using h.2.2
    rw [runPollLoop_eq_poll beh s h]
    refine ⟨?_, ?_, ?_, ?_, ?_⟩
    · rw [ih.1]; simp; omega
    · simp only [List.length_cons, ih.2.1]; simp; omega
    · exact ih.2.2.1
    · rw [ih.2.2.2.1]; simp
    · exact ih.2.2.2.2

/-- When the first `k - retry_count₀ - 1` remaining status calls report
RUNNING and the `k`-th reports FAILED within the budget, the loop stops at
check `k` with status FAILED and never fetches. -/
theorem pollLoop_fail_at (beh : ClientBehavior) (k : Nat) (s : AgentState)
    (hrun : ∀ i, s.retry_count < i → i < k → beh.statusAt i = .RUNNING)
    (hfail : beh.statusAt k = .FAILED)
    (hlow : s.retry_count < k) (hhigh : k ≤ s.max_retries) :
    (runPollLoop beh s).final.retry_count = k ∧
    (runPollLoop beh s).trace.length = k - s.retry_count ∧
    (runPollLoop beh s).final.athena_status = "FAILED" ∧
    (runPollLoop beh s).final.max_retries = s.max_retries ∧
    (runPollLoop beh s).fetchCalls = 0 := by
  induction s using runPollLoop.induct beh with
  | case1 s h =>
    rw [router_eq_fetch_iff] at h
    simp only [poll_status_field, value_eq_succeeded_iff] at h
    rcases Nat.lt_or_ge (s.retry_count + 1) k with hc | hc
    · rw [hrun (s.retry_count + 1) (by omega) hc] at h
      exact absurd h (by decide)
    · have : s.retry_count + 1 = k := by omega
      rw [this, hfail] at h
      exact absurd h (by decide)
  | case2 s h =>
    have hend := h
    rw [router_eq_end_iff] at h
    simp only [poll_status_field, poll_retry_count, poll_max_retries] at h
    have hk : s.retry_count + 1 = k := by
      rcases Nat.lt_or_ge (s.retry_count + 1) k with hc | hc
      · exfalso
        rw [hrun (s.retry_count + 1) (by omega) hc] at h
        rcases h.2 with h' | h'
        · exact absurd h' (by decide)
        · omega
      · omega
    rw [runPollLoop_eq_end beh s hend]
    refine ⟨by simpa using hk, by simp; omega, ?_, by simp, rfl⟩
    simp only [poll_status_field, hk, hfail]
    rfl
  | case3 s h ih =>
    have hroute := h
    rw [router_eq_poll_iff] at hroute
    simp only [poll_status_field, poll_retry_count, poll_max_retries,
      value_eq_succeeded_iff, value_eq_failed_iff] at hroute
    have hk : s.retry_count + 1 < k := by
      rcases Nat.lt_or_ge (s.retry_count + 1) k with hc | hc
      · exact hc
      · exfalso
        have : s.retry_count + 1 = k := by omega
        rw [this, hfail] at hroute
        exact hroute.2.1 rfl
    have ih' := ih (fun i hi₁ hi₂ => hrun i (by simp at hi₁; omega) hi₂)
      (by simp; omega) (by simpa using hhigh)
    rw [runPollLoop_eq_poll beh s h]
    refine ⟨?_, ?_, ?_, ?_, ?_⟩
    · rw [ih'.1]
    · simp only [List.length_cons, ih'.2.1]
      simp
      omega
    · exact ih'.2.2.1
    · rw [ih'.2.2.2.1]; simp
    · exact ih'.2.2.2.2

/-- In any run of the poll loop, `get_query_results` is called at most
once, it is called exactly once iff the loop ended because a status check
reported SUCCEEDED, and in that case the final state carries the
materialized analysis of the fetched rows. -/
theorem pollLoop_fetch_spec (beh : ClientBehavior) (s : AgentState) :
    (runPollLoop beh s).fetchCalls ≤ 1 ∧
    ((runPollLoop beh s).fetchCalls = 1 ↔
      (runPollLoop beh s).final.athena_status = "SUCCEEDED") ∧
    ((runPollLoop beh s).final.athena_status = "SUCCEEDED" →
      (runPollLoop beh s).final.analysis_result =
        some (beh.fetchRows.length,
              "Retrieved " ++ toString beh.fetchRows.length ++ " rows",
              beh.fetchRows)) := by
  induction s using runPollLoop.induct beh with
  | case1 s h =>
    have hs := (router_eq_fetch_iff _).mp h
    rw [runPollLoop_eq_fetch beh s h]
    refine ⟨le_refl 1, ?_, ?_⟩
    · simpa using hs
    · intro _; simp
  | case2 s h =>
    have hs := (router_eq_end_iff _).mp h
    rw [runPollLoop_eq_end beh s h]
    refine ⟨by simp, ?_, ?_⟩
    · simpa using fun hcontra => absurd hcontra hs.1
    · exact fun hcontra => absurd hcontra hs.1
  | case3 s h ih =>
    rw [runPollLoop_eq_poll beh s h]
    exact ih

/-- Structure of one poll-loop run: the trace of post-check states is
nonempty; each check increments the counter, which stays within
`max max_retries (retry_count₀ + 1)`; every check but the last observed a
non-terminal status under budget; the loop stops exactly at the first
check that is terminal or exhausts the budget; and the final state keeps
the last check's counter and status. -/
theorem pollLoop_trace_spec (beh : ClientBehavior) (s : AgentState) :
    (runPollLoop beh s).trace ≠ [] ∧
    (runPollLoop beh s).trace.length + s.retry_count
        = (runPollLoop beh s).final.retry_count ∧
    (∀ st ∈ (runPollLoop beh s).trace,
        s.retry_count < st.retry_count ∧
        st.retry_count ≤ max s.max_retries (s.retry_count + 1) ∧
        st.max_retries = s.max_retries) ∧
    (∀ st ∈ (runPollLoop beh s).trace.dropLast,
        ¬ isTerminalState st ∧ st.retry_count < s.max_retries) ∧
    (∀ h : (runPollLoop beh s).trace ≠ [],
        ((runPollLoop beh s).trace.getLast h).retry_count
            = (runPollLoop beh s).final.retry_count ∧
        ((runPollLoop beh s).trace.getLast h).athena_status
            = (runPollLoop beh s).final.athena_status ∧
        (isTerminalState ((runPollLoop beh s).trace.getLast h) ∨
          s.max_retries ≤ ((runPollLoop beh s).trace.getLast h).retry_count)) := by
  induction s using runPollLoop.induct beh with
  | case1 s h =>
    have hs := (router_eq_fetch_iff _).mp h
    rw [runPollLoop_eq_fetch beh s h]
    refine ⟨by simp, by simp <;> omega, ?_, by simp, ?_⟩
    · intro st hst
      simp only [List.mem_singleton] at hst
      subst hst
      simp <;> omega
    · intro h'
      refine ⟨by simp, by simp, Or.inl ?_⟩
      simp only [List.getLast_singleton]
      exact Or.inl hs
  | case2 s h =>
    have hs := (router_eq_end_iff _).mp h
    rw [runPollLoop_eq_end beh s h]
    refine ⟨by simp, by simp <;> omega, ?_, by simp, ?_⟩
    · intro st hst
      simp only [List.mem_singleton] at hst
      subst hst
      simp <;> omega
    · intro h'
      refine ⟨by simp, by simp, ?_⟩
      simp only [List.getLast_singleton]
      rcases hs.2 with h' | h'
      · exact Or.inl (Or.inr h')
      · exact Or.inr (by simpa using h')
  | case3 s h ih =>
    have hs := (router_eq_poll_iff _).mp h
    simp only [poll_status_field, poll_retry_count, poll_max_retries] at hs
    obtain ⟨ihne, ihlen, ihmem, ihdrop, ihlast⟩ := ih
    rw [runPollLoop_eq_poll beh s h]
    have htne : (poll_athena_status beh s
        :: (runPollLoop beh (poll_athena_status beh s)).trace) ≠ [] := by
      simp
    refine ⟨htne, ?_, ?_, ?_, ?_⟩
    · simp only [List.length_cons]
      simp only [poll_retry_count] at ihlen
      omega
    · intro st hst
      rcases List.mem_cons.mp hst with hst | hst
      · subst hst
        simp <;> omega
      · have := ihmem st hst
        simp only [poll_retry_count, poll_max_retries] at this
        refine ⟨by omega, ?_, this.2.2⟩
        have hlt : s.retry_count + 1 < s.max_retries := hs.2.2
        omega
    · intro st hst
      rw [List.dropLast_cons_of_ne_nil ihne] at hst
      rcases List.mem_cons.mp hst with hst | hst
      · subst hst
        constructor
        · simp only [isTerminalState, poll_status_field]
          push_neg
          constructor
          · simpa [value_eq_succeeded_iff] using hs.1
          · simpa [value_eq_failed_iff] using hs.2.1
        · simpa using hs.2.2
      · have := ihdrop st hst
        simpa [poll_max_retries] using this
    · intro h'
      rw [List.getLast_cons ihne]
      exact ⟨(ihlast ihne).1, (ihlast ihne).2.1,
        by simpa [poll_max_retries] using (ihlast ihne).2.2⟩

/-! ### Graph-level and entrypoint-level helper lemmas -/

theorem runGraph_eq_ok (beh : ClientBehavior) (qid sql : String) (N : Nat)
    (hsub : beh.submitResult = .ok qid) :
    runGraph beh (initialState sql N) =
      ⟨.ok (runPollLoop beh (postSubmitState qid sql N)).final, 1,
       (runPollLoop beh (postSubmitState qid sql N)).trace,
       (runPollLoop beh (postSubmitState qid sql N)).fetchCalls⟩ := by
  unfold runGraph submit_athena_query
  rw [hsub]
  rfl

@[simp] theorem postSubmitState_retry_count (qid sql : String) (N : Nat) :
    (postSubmitState qid sql N).retry_count = 0 := rfl

@[simp] theorem postSubmitState_max_retries (qid sql : String) (N : Nat) :
    (postSubmitState qid sql N).max_retries = N := rfl

@[simp] theorem postSubmitState_athena_status (qid sql : String) (N : Nat) :
    (postSubmitState qid sql N).athena_status = "RUNNING" := rfl

theorem runGraph_eq_error (beh : ClientBehavior) (init : AgentState)
    (msg : String) (hsub : beh.submitResult = .error msg) :
    runGraph beh init = ⟨.error msg, 1, [], 0⟩ := by
  unfold runGraph submit_athena_query
  rw [hsub]

theorem invoke_eq_of_ok (beh : ClientBehavior) (p : Payload)
    (env : Option Nat) (fs : AgentState)
    (hout : (runGraph beh (initialState (extractSqlQuery p)
        (extractMaxRetries p env))).outcome = .ok fs) :
    invoke beh p env =
      if fs.athena_status = "SUCCEEDED" then
        ⟨"success", some fs.query_execution_id, some fs.retry_count,
         fs.analysis_result, none⟩
      else if fs.athena_status = "FAILED" then
        ⟨"failed", some fs.query_execution_id, some fs.retry_count,
         none, some "Query execution failed"⟩
      else
        ⟨"timeout", some fs.query_execution_id, some fs.retry_count,
         none, some ("Query timed out after "
                     ++ toString (extractMaxRetries p env)
                     ++ " polling attempts")⟩ := by
  unfold invoke
  simp only [hout]

theorem invoke_eq_of_error (beh : ClientBehavior) (p : Payload)
    (env : Option Nat) (msg : String)
    (hout : (runGraph beh (initialState (extractSqlQuery p)
        (extractMaxRetries p env))).outcome = .error msg) :
    invoke beh p env = ⟨"error", none, none, none, some msg⟩ := by
  unfold invoke
  simp only [hout]

/-- RUNNING on every check: the compiled graph performs `max N 1` status
checks from a fresh initial state with budget `N`, ends with status string
RUNNING and counter `max N 1`, and never fetches. -/
theorem run_all_running (beh : ClientBehavior) (qid sql : String) (N : Nat)
    (hsub : beh.submitResult = .ok qid)
    (hb : ∀ k, beh.statusAt k = .RUNNING) :
    (runGraph beh (initialState sql N)).statusChecks = max N 1 ∧
    (runGraph beh (initialState sql N)).fetchCalls = 0 ∧
    ∃ fs, (runGraph beh (initialState sql N)).outcome = .ok fs ∧
      fs.retry_count = max N 1 ∧ fs.max_retries = N ∧
      fs.athena_status = "RUNNING" := by
  rw [runGraph_eq_ok beh qid sql N hsub]
  have hfacts := pollLoop_all_running beh hb (postSubmitState qid sql N)
  simp only [postSubmitState_retry_count, postSubmitState_max_retries,
    Nat.zero_add] at hfacts
  refine ⟨?_, hfacts.2.2.2.2, _, rfl, hfacts.1, hfacts.2.2.2.1,
    hfacts.2.2.1⟩
  simpa [GraphRun.statusChecks] using hfacts.2.1

/-- SUCCEEDED on the first check: one status check, one fetch, and a final
state with counter 1 carrying the materialized analysis. -/
theorem run_first_success (beh : ClientBehavior) (qid sql : String) (N : Nat)
    (hsub : beh.submitResult = .ok qid)
    (h1 : beh.statusAt 1 = .SUCCEEDED) :
    (runGraph beh (initialState sql N)).statusChecks = 1 ∧
    (runGraph beh (initialState sql N)).fetchCalls = 1 ∧
    ∃ fs, (runGraph beh (initialState sql N)).outcome = .ok fs ∧
      fs.retry_count = 1 ∧ fs.athena_status = "SUCCEEDED" ∧
      fs.analysis_result =
        some (beh.fetchRows.length,
              "Retrieved " ++ toString beh.fetchRows.length ++ " rows",
              beh.fetchRows) := by
  rw [runGraph_eq_ok beh qid sql N hsub]
  have hroute : should_continue_polling (poll_athena_status beh
      (postSubmitState qid sql N)) = .fetch_results := by
    rw [router_eq_fetch_iff]
    simp [h1, QueryStatus.value]
  rw [runPollLoop_eq_fetch _ _ hroute]
  refine ⟨rfl, rfl, _, rfl, by simp, ?_, by simp⟩
  simp [h1, QueryStatus.value]

/-- FAILED on check `k ≤ N` (everything before it RUNNING): exactly `k`
status checks, no fetch, and a FAILED final state with counter `k`. -/
theorem run_fail_at (beh : ClientBehavior) (qid sql : String) (N k : Nat)
    (hsub : beh.submitResult = .ok qid) (hk1 : 1 ≤ k) (hkN : k ≤ N)
    (hrun : ∀ i, 1 ≤ i → i < k → beh.statusAt i = .RUNNING)
    (hfail : beh.statusAt k = .FAILED) :
    (runGraph beh (initialState sql N)).statusChecks = k ∧
    (runGraph beh (initialState sql N)).fetchCalls = 0 ∧
    ∃ fs, (runGraph beh (initialState sql N)).outcome = .ok fs ∧
      fs.retry_count = k ∧ fs.athena_status = "FAILED" := by
  rw [runGraph_eq_ok beh qid sql N hsub]
  have hfacts := pollLoop_fail_at beh k (postSubmitState qid sql N)
    (fun i hi₁ hi₂ => hrun i (by simpa using hi₁) hi₂)
    hfail (by simpa using hk1) (by simpa using hkN)
  refine ⟨?_, hfacts.2.2.2.2, _, rfl, hfacts.1, hfacts.2.2.1⟩
  simpa [GraphRun.statusChecks] using hfacts.2.1

/-- RUNNING on every check: the hosted entrypoint answers timeout with
`polls = max max_retries 1`. -/
theorem invoke_all_running (beh : ClientBehavior) (qid : String)
    (hsub : beh.submitResult = .ok qid)
    (hb : ∀ k, beh.statusAt k = .RUNNING)
    (p : Payload) (env : Option Nat) :
    (invoke beh p env).status = "timeout" ∧
    (invoke beh p env).polls = some (max (extractMaxRetries p env) 1) ∧
    (invoke beh p env).result = none := by
  obtain ⟨hc, hf, fs, hout, hret, hmax, hstat⟩ :=
    run_all_running beh qid (extractSqlQuery p) (extractMaxRetries p env)
      hsub hb
  rw [invoke_eq_of_ok beh p env fs hout, hstat]
  simp [hret]

/-- SUCCEEDED on the first check: the hosted entrypoint answers success
with `polls = 1` and the materialized analysis. -/
theorem invoke_first_success (beh : ClientBehavior) (qid : String)
    (hsub : beh.submitResult = .ok qid)
    (h1 : beh.statusAt 1 = .SUCCEEDED)
    (p : Payload) (env : Option Nat) :
    (invoke beh p env).status = "success" ∧
    (invoke beh p env).polls = some 1 ∧
    (invoke beh p env).result =
      some (beh.fetchRows.length,
            "Retrieved " ++ toString beh.fetchRows.length ++ " rows",
            beh.fetchRows) := by
  obtain ⟨hc, hf, fs, hout, hret, hstat, hana⟩ :=
    run_first_success beh qid (extractSqlQuery p) (extractMaxRetries p env)
      hsub h1
  rw [invoke_eq_of_ok beh p env fs hout, hstat]
  simp [hret, hana]

/-- FAILED on check `k ≤ max_retries`: the hosted entrypoint answers
failed with `polls = k` and no result payload. -/
theorem invoke_fail_at (beh : ClientBehavior) (qid : String) (k : Nat)
    (hsub : beh.submitResult = .ok qid)
    (p : Payload) (env : Option Nat)
    (hk1 : 1 ≤ k) (hkN : k ≤ extractMaxRetries p env)
    (hrun : ∀ i, 1 ≤ i → i < k → beh.statusAt i = .RUNNING)
    (hfail : beh.statusAt k = .FAILED) :
    (invoke beh p env).status = "failed" ∧
    (invoke beh p env).polls = some k ∧
    (invoke beh p env).result = none := by
  obtain ⟨hc, hf, fs, hout, hret, hstat⟩ :=
    run_fail_at beh qid (extractSqlQuery p) (extractMaxRetries p env) k
      hsub hk1 hkN hrun hfail
  rw [invoke_eq_of_ok beh p env fs hout, hstat]
  simp [hret]

/-- A raising submission: the hosted entrypoint answers with the caught
error. -/
theorem invoke_submit_error (beh : ClientBehavior) (msg : String)
    (hsub : beh.submitResult = .error msg)
    (p : Payload) (env : Option Nat) :
    invoke beh p env = ⟨"error", none, none, none, some msg⟩ :=
  invoke_eq_of_error beh p env msg
    (by rw [runGraph_eq_error beh _ msg hsub])

/-! ### Invariants of the mock client -/

theorem get_query_status_none (c : AthenaQuery) (qid : String) (now : Int)
    (hlook : c.queries qid = none) :
    c.get_query_status qid now = .error ("Query " ++ qid ++ " not found") := by
  unfold AthenaQuery.get_query_status
  rw [hlook]

theorem get_query_status_some (c : AthenaQuery) (qid : String) (now : Int)
    (q₀ : QueryRec) (hlook : c.queries qid = some q₀) :
    c.get_query_status qid now =
      if q₀.sleep_duration ≤ now - q₀.start_time then
        .ok (.SUCCEEDED,
             c.set qid { q₀ with status := .SUCCEEDED,
                                 results := some mockRows })
      else
        .ok (q₀.status, c) := by
  unfold AthenaQuery.get_query_status
  rw [hlook]

theorem clientInv_init : ClientInv AthenaQuery.init := by
  intro qid q hq
  simp [AthenaQuery.init] at hq

theorem clientInv_step {c c' : AthenaQuery} (hinv : ClientInv c)
    (hstep : ClientStep c c') : ClientInv c' := by
  cases hstep with
  | exec query_id sql now sleep_seconds hfresh =>
    intro qid q hq
    simp only [AthenaQuery.ExecuteSQL, AthenaQuery.set] at hq
    by_cases hcase : qid = query_id
    · rw [if_pos hcase] at hq
      cases hq
      exact ⟨by simp, by simp, fun _ => rfl⟩
    · rw [if_neg hcase] at hq
      exact hinv qid q hq
  | status query_id now st c' hcall =>
    intro qid q hq
    cases hlook : c.queries query_id with
    | none =>
      rw [get_query_status_none c query_id now hlook] at hcall
      exact absurd hcall (by simp)
    | some q₀ =>
      rw [get_query_status_some c query_id now q₀ hlook] at hcall
      by_cases helapsed : q₀.sleep_duration ≤ now - q₀.start_time
      · rw [if_pos helapsed] at hcall
        simp only [Except.ok.injEq, Prod.mk.injEq] at hcall
        rw [← hcall.2] at hq
        simp only [AthenaQuery.set] at hq
        by_cases hcase : qid = query_id
        · rw [if_pos hcase] at hq
          cases hq
          exact ⟨by simp, fun _ => rfl, by simp⟩
        · rw [if_neg hcase] at hq
          exact hinv qid q hq
      · rw [if_neg helapsed] at hcall
        simp only [Except.ok.injEq, Prod.mk.injEq] at hcall
        rw [← hcall.2] at hq
        exact hinv qid q hq

theorem clientInv_steps {c c' : AthenaQuery} (hinv : ClientInv c)
    (hsteps : ClientSteps c c') : ClientInv c' := by
  induction hsteps with
  | refl => exact hinv
  | tail _ hstep ih => exact clientInv_step ih hstep

theorem reachable_inv {c : AthenaQuery} (hreach : Reachable c) :
    ClientInv c :=
  clientInv_steps clientInv_init hreach

/-- A stored SUCCEEDED status survives any further client step. -/
theorem succeeded_persists_step {c c' : AthenaQuery} {qid : String}
    (hstep : ClientStep c c')
    (hsucc : (c.queries qid).map QueryRec.status = some .SUCCEEDED) :
    (c'.queries qid).map QueryRec.status = some .SUCCEEDED := by
  cases hstep with
  | exec query_id sql now sleep_seconds hfresh =>
    simp only [AthenaQuery.ExecuteSQL, AthenaQuery.set]
    by_cases hcase : qid = query_id
    · rw [hcase, hfresh] at hsucc
      simp at hsucc
    · rw [if_neg hcase]
      exact hsucc
  | status query_id now st c' hcall =>
    cases hlook : c.queries query_id with
    | none =>
      rw [get_query_status_none c query_id now hlook] at hcall
      exact absurd hcall (by simp)
    | some q₀ =>
      rw [get_query_status_some c query_id now q₀ hlook] at hcall
      by_cases helapsed : q₀.sleep_duration ≤ now - q₀.start_time
      · rw [if_pos helapsed] at hcall
        simp only [Except.ok.injEq, Prod.mk.injEq] at hcall
        rw [← hcall.2]
        simp only [AthenaQuery.set]
        by_cases hcase : qid = query_id
        · rw [if_pos hcase]; rfl
        · rw [if_neg hcase]; exact hsucc
      · rw [if_neg helapsed] at hcall
        simp only [Except.ok.injEq, Prod.mk.injEq] at hcall
        rw [← hcall.2]
        exact hsucc

theorem succeeded_persists {c c' : AthenaQuery} {qid : String}
    (hsteps : ClientSteps c c')
    (hsucc : (c.queries qid).map QueryRec.status = some .SUCCEEDED) :
    (c'.queries qid).map QueryRec.status = some .SUCCEEDED := by
  induction hsteps with
  | refl => exact hsucc
  | tail _ hstep ih => exact succeeded_persists_step hstep ih

/-- On a reachable client, a status call that reports a terminal value in
fact reports SUCCEEDED, and leaves the job stored as SUCCEEDED. -/
theorem reported_terminal_succeeded {c c' : AthenaQuery} {qid : String}
    {now : Int} {st : QueryStatus} (hreach : Reachable c)
    (hcall : c.get_query_status qid now = .ok (st, c'))
    (hterm : st ≠ .RUNNING) :
    st = .SUCCEEDED ∧
    (c'.queries qid).map QueryRec.status = some .SUCCEEDED := by
  have hinv := reachable_inv hreach
  cases hlook : c.queries qid with
  | none =>
    rw [get_query_status_none c qid now hlook] at hcall
    exact absurd hcall (by simp)
  | some q₀ =>
    rw [get_query_status_some c qid now q₀ hlook] at hcall
    by_cases helapsed : q₀.sleep_duration ≤ now - q₀.start_time
    · rw [if_pos helapsed] at hcall
      simp only [Except.ok.injEq, Prod.mk.injEq] at hcall
      refine ⟨hcall.1.symm, ?_⟩
      rw [← hcall.2]
      simp [AthenaQuery.set]
    · rw [if_neg helapsed] at hcall
      simp only [Except.ok.injEq, Prod.mk.injEq] at hcall
      have hst : st = q₀.status := hcall.1.symm
      have hnotFailed := (hinv qid q₀ hlook).1
      have hsucc : q₀.status = .SUCCEEDED := by
        cases hq : q₀.status with
        | RUNNING => rw [hst, hq] at hterm; exact absurd rfl hterm
        | SUCCEEDED => rfl
        | FAILED => exact absurd hq hnotFailed
      refine ⟨hst.trans hsucc, ?_⟩
      rw [← hcall.2, hlook]
      simp [hsucc]

/-- A status call on a client storing SUCCEEDED at `qid` reports
SUCCEEDED. -/
theorem status_call_on_succeeded {c c' : AthenaQuery} {qid : String}
    {now : Int} {st : QueryStatus}
    (hsucc : (c.queries qid).map QueryRec.status = some .SUCCEEDED)
    (hcall : c.get_query_status qid now = .ok (st, c')) :
    st = .SUCCEEDED := by
  cases hlook : c.queries qid with
  | none =>
    rw [get_query_status_none c qid now hlook] at hcall
    exact absurd hcall (by simp)
  | some q₀ =>
    rw [hlook] at hsucc
    have hq : q₀.status = .SUCCEEDED := by simpa using hsucc
    rw [get_query_status_some c qid now q₀ hlook] at hcall
    by_cases helapsed : q₀.sleep_duration ≤ now - q₀.start_time
    · rw [if_pos helapsed] at hcall
      simp only [Except.ok.injEq, Prod.mk.injEq] at hcall
      exact hcall.1.symm
    · rw [if_neg helapsed] at hcall
      simp only [Except.ok.injEq, Prod.mk.injEq] at hcall
      exact hcall.1.symm.trans hq

/-! ### Claim theorems -/

/-- C1 (amended): if the Job Client reports RUNNING on every status call,
one execution of the compiled graph performs exactly `max N 1` status
checks and returns the timeout outcome with `attempts = max N 1`. For
`N ≥ 1` this is exactly N checks as claimed, but `max_attempts = 0` does
not yield zero checks: the unconditional `submit_query → poll_status` edge
runs the poll node once before the router's budget check, so one check is
performed and the timeout outcome reports `attempt_count = 1`. -/
theorem running_forever_polls_max_budget_one (beh : ClientBehavior)
    (qid sql : String) (N : Nat)
    (hsub : beh.submitResult = .ok qid)
    (hb : ∀ k, beh.statusAt k = .RUNNING) :
    (runGraph beh (initialState sql N)).statusChecks = max N 1 ∧
    (runGraph beh (initialState sql N)).fetchCalls = 0 ∧
    (∃ fs, (runGraph beh (initialState sql N)).outcome = .ok fs ∧
        fs.retry_count = max N 1 ∧ fs.athena_status = "RUNNING") ∧
    ∀ (p : Payload) (env : Option Nat), extractMaxRetries p env = N →
      (invoke beh p env).status = "timeout" ∧
      (invoke beh p env).polls = some (max N 1) := by
  obtain ⟨hc, hf, fs, hout, hret, hmax, hstat⟩ :=
    run_all_running beh qid sql N hsub hb
  refine ⟨hc, hf, ⟨fs, hout, hret, hstat⟩, ?_⟩
  intro p env hN
  have h := invoke_all_running beh qid hsub hb p env
  rw [hN] at h
  exact ⟨h.1, h.2.1⟩

/-- C1 counterexample: with `max_retries = 0` and a client that always
reports RUNNING, the graph performs one status check — not zero — and the
timeout outcome reports one attempt — not zero. -/
theorem running_forever_zero_budget_polls_once :
    (runGraph behAllRunning (initialState "SELECT 1" 0)).statusChecks ≠ 0 ∧
    (runGraph behAllRunning (initialState "SELECT 1" 0)).statusChecks = 1 ∧
    (invoke behAllRunning ⟨some "SELECT 1", none, some 0⟩ none).polls
      ≠ some 0 ∧
    (invoke behAllRunning ⟨some "SELECT 1", none, some 0⟩ none).polls
      = some 1 := by
  obtain ⟨hc, -, -⟩ :=
    run_all_running behAllRunning "qid-1" "SELECT 1" 0 rfl (fun _ => rfl)
  have hi := invoke_all_running behAllRunning "qid-1" rfl (fun _ => rfl)
    ⟨some "SELECT 1", none, some 0⟩ none
  have hpolls := hi.2.1
  have hext : extractMaxRetries ⟨some "SELECT 1", none, some 0⟩ none = 0 := rfl
  rw [hext] at hpolls
  refine ⟨by simp_all, by simpa using hc, by simp_all, by simpa using hpolls⟩

theorem running_forever_polls_max_budget_one_witness :
    behAllRunning.submitResult = Except.ok "qid-1" ∧
    (∀ k, behAllRunning.statusAt k = QueryStatus.RUNNING) ∧
    (runGraph behAllRunning (initialState "SELECT 1" 3)).statusChecks
      = max 3 1 ∧
    (invoke behAllRunning ⟨some "SELECT 1", none, some 3⟩ none).status
      = "timeout" := by
  have h := running_forever_polls_max_budget_one behAllRunning "qid-1"
    "SELECT 1" 3 rfl (fun _ => rfl)
  exact ⟨rfl, fun _ => rfl, h.1,
    (h.2.2.2 ⟨some "SELECT 1", none, some 3⟩ none rfl).1⟩

/-- C2 (amended): for `max_retries = N ≥ 1` the poll counter never exceeds
N throughout the execution — neither in any post-check state nor in the
final state — the checks before the last all observed a non-terminal
status with the counter strictly under budget, and the last check is
terminal or has counter exactly N (whichever came first). For `N = 0` the
invariant fails: the unconditionally entered poll node drives the counter
to 1 > 0 (see the counterexample). -/
theorem poll_counter_bounded_stops_at_first_terminal (beh : ClientBehavior)
    (qid sql : String) (N : Nat)
    (hsub : beh.submitResult = .ok qid) (hN : 1 ≤ N) :
    (runGraph beh (initialState sql N)).statusChecks ≤ N ∧
    (∀ st ∈ (runGraph beh (initialState sql N)).trace,
        st.retry_count ≤ N) ∧
    (∀ fs, (runGraph beh (initialState sql N)).outcome = .ok fs →
        fs.retry_count ≤ N) ∧
    (∀ st ∈ (runGraph beh (initialState sql N)).trace.dropLast,
        ¬ isTerminalState st ∧ st.retry_count < N) ∧
    (∀ h : (runGraph beh (initialState sql N)).trace ≠ [],
        isTerminalState
          ((runGraph beh (initialState sql N)).trace.getLast h) ∨
        ((runGraph beh (initialState sql N)).trace.getLast h).retry_count
          = N) := by
  rw [runGraph_eq_ok beh qid sql N hsub]
  obtain ⟨hne, hlen, hmem, hdrop, hlast⟩ :=
    pollLoop_trace_spec beh (postSubmitState qid sql N)
  rw [postSubmitState_retry_count] at hlen
  simp only [postSubmitState_retry_count, postSubmitState_max_retries]
    at hmem hdrop hlast
  have hbound : ∀ st ∈ (runPollLoop beh (postSubmitState qid sql N)).trace,
      st.retry_count ≤ N := by
    intro st hst
    have := hmem st hst
    omega
  have hfin : (runPollLoop beh (postSubmitState qid sql N)).final.retry_count
      ≤ N := by
    have h1 := (hlast hne).1
    have h2 := hbound _ (List.getLast_mem hne)
    omega
  refine ⟨?_, hbound, ?_, ?_, ?_⟩
  · show (runPollLoop beh _).trace.length ≤ N
    omega
  · intro fs hfs
    simp only [Except.ok.injEq] at hfs
    rw [← hfs]
    exact hfin
  · intro st hst
    exact hdrop st hst
  · intro h
    have h' : (runPollLoop beh (postSubmitState qid sql N)).trace ≠ [] := h
    rcases (hlast h').2.2 with hterm | hge
    · exact Or.inl hterm
    · refine Or.inr ?_
      show ((runPollLoop beh
          (postSubmitState qid sql N)).trace.getLast h').retry_count = N
      have hb2 := hbound _ (List.getLast_mem h')
      omega

/-- C2 counterexample: with `max_retries = 0` and an always-RUNNING
client, the final state's poll counter is 1, strictly above the budget 0,
and the loop did not terminate at `retry_count == max_retries`. -/
theorem poll_counter_exceeds_zero_budget :
    ∃ fs, (runGraph behAllRunning (initialState "SELECT 1" 0)).outcome
        = .ok fs ∧
      fs.max_retries = 0 ∧ fs.retry_count = 1 := by
  obtain ⟨-, -, fs, hout, hret, hmax, -⟩ :=
    run_all_running behAllRunning "qid-1" "SELECT 1" 0 rfl (fun _ => rfl)
  exact ⟨fs, hout, by simpa using hmax, by simpa using hret⟩

theorem poll_counter_bounded_stops_at_first_terminal_witness :
    behAllRunning.submitResult = Except.ok "qid-1" ∧ 1 ≤ 1 ∧
    (runGraph behAllRunning (initialState "SELECT 1" 1)).statusChecks
      ≤ 1 := by
  have h := poll_counter_bounded_stops_at_first_terminal behAllRunning
    "qid-1" "SELECT 1" 1 rfl (le_refl 1)
  exact ⟨rfl, le_refl 1, h.1⟩

/-- C3: if the Job Client reports SUCCEEDED on the first status check, the
graph performs exactly one status check, calls `get_query_results` exactly
once, and both the final graph state and the hosted response are the
success outcome with `attempts = 1` and the materialized rows — for every
`max_retries`, including 0, because the router tests SUCCEEDED before the
retry-budget condition. -/
theorem first_check_succeeded_single_poll (beh : ClientBehavior)
    (qid sql : String) (N : Nat)
    (hsub : beh.submitResult = .ok qid)
    (h1 : beh.statusAt 1 = .SUCCEEDED) :
    (runGraph beh (initialState sql N)).statusChecks = 1 ∧
    (runGraph beh (initialState sql N)).fetchCalls = 1 ∧
    (∃ fs, (runGraph beh (initialState sql N)).outcome = .ok fs ∧
        fs.retry_count = 1 ∧ fs.athena_status = "SUCCEEDED") ∧
    ∀ (p : Payload) (env : Option Nat),
      (invoke beh p env).status = "success" ∧
      (invoke beh p env).polls = some 1 := by
  obtain ⟨hc, hf, fs, hout, hret, hstat, -⟩ :=
    run_first_success beh qid sql N hsub h1
  refine ⟨hc, hf, ⟨fs, hout, hret, hstat⟩, ?_⟩
  intro p env
  have h := invoke_first_success beh qid hsub h1 p env
  exact ⟨h.1, h.2.1⟩

theorem first_check_succeeded_single_poll_witness :
    behImmediateSuccess.submitResult = Except.ok "qid-2" ∧
    behImmediateSuccess.statusAt 1 = QueryStatus.SUCCEEDED ∧
    (runGraph behImmediateSuccess (initialState "SELECT 1" 0)).statusChecks
      = 1 ∧
    (runGraph behImmediateSuccess (initialState "SELECT 1" 0)).fetchCalls
      = 1 ∧
    (invoke behImmediateSuccess ⟨some "SELECT 1", none, some 0⟩ none).status
      = "success" := by
  have h := first_check_succeeded_single_poll behImmediateSuccess "qid-2"
    "SELECT 1" 0 rfl rfl
  exact ⟨rfl, rfl, h.1, h.2.1,
    (h.2.2.2 ⟨some "SELECT 1", none, some 0⟩ none).1⟩

/-- C4: if the Job Client reports FAILED on status check `k` (with
`1 ≤ k ≤ max_retries`, RUNNING before), the graph stops at attempt `k`:
exactly `k` status checks happen, `get_query_results` is never called, and
both the final state and the hosted response are the failure outcome with
`attempts = k`. The wait between attempts occurs only on the router's
`poll_status` route, so no further wait follows the FAILED check either. -/
theorem failed_check_stops_immediately (beh : ClientBehavior)
    (qid sql : String) (N k : Nat)
    (hsub : beh.submitResult = .ok qid)
    (hk1 : 1 ≤ k) (hkN : k ≤ N)
    (hrun : ∀ i, 1 ≤ i → i < k → beh.statusAt i = .RUNNING)
    (hfail : beh.statusAt k = .FAILED) :
    (runGraph beh (initialState sql N)).statusChecks = k ∧
    (runGraph beh (initialState sql N)).fetchCalls = 0 ∧
    (∃ fs, (runGraph beh (initialState sql N)).outcome = .ok fs ∧
        fs.retry_count = k ∧ fs.athena_status = "FAILED") ∧
    ∀ (p : Payload) (env : Option Nat), extractMaxRetries p env = N →
      (invoke beh p env).status = "failed" ∧
      (invoke beh p env).polls = some k ∧
      (invoke beh p env).result = none := by
  obtain ⟨hc, hf, fs, hout, hret, hstat⟩ :=
    run_fail_at beh qid sql N k hsub hk1 hkN hrun hfail
  refine ⟨hc, hf, ⟨fs, hout, hret, hstat⟩, ?_⟩
  intro p env hN
  exact invoke_fail_at beh qid k hsub p env hk1 (by rw [hN]; exact hkN)
    hrun hfail

theorem failed_check_stops_immediately_witness :
    behFailSecond.submitResult = Except.ok "qid-3" ∧
    (1 : Nat) ≤ 2 ∧ (2 : Nat) ≤ 5 ∧
    behFailSecond.statusAt 1 = QueryStatus.RUNNING ∧
    behFailSecond.statusAt 2 = QueryStatus.FAILED ∧
    (runGraph behFailSecond (initialState "SELECT 1" 5)).statusChecks = 2 ∧
    (runGraph behFailSecond (initialState "SELECT 1" 5)).fetchCalls = 0 ∧
    (invoke behFailSecond ⟨some "SELECT 1", none, some 5⟩ none).status
      = "failed" := by
  have h := failed_check_stops_immediately behFailSecond "qid-3" "SELECT 1"
    5 2 rfl (by omega) (by omega)
    (fun i hi₁ hi₂ => by
      have hi : i = 1 := by omega
      rw [hi]
      rfl)
    rfl
  refine ⟨rfl, by omega, by omega, rfl, rfl, h.1, h.2.1, ?_⟩
  exact (h.2.2.2 ⟨some "SELECT 1", none, some 5⟩ none rfl).1

/-- C5: in every execution of the compiled graph — for any client
behavior, query and retry budget, including the submission-error path —
`get_query_results` is invoked at most once, and exactly once iff the
execution ended in a final state whose last status check reported
SUCCEEDED (the final state's `athena_status` is exactly the value written
by the last status check); hence it is never invoked on the failure or
timeout path. -/
theorem fetch_called_at_most_once_only_on_success (beh : ClientBehavior)
    (sql : String) (N : Nat) :
    (runGraph beh (initialState sql N)).fetchCalls ≤ 1 ∧
    ((runGraph beh (initialState sql N)).fetchCalls = 1 ↔
      ∃ fs, (runGraph beh (initialState sql N)).outcome = .ok fs ∧
        fs.athena_status = "SUCCEEDED") := by
  cases hsub : beh.submitResult with
  | error e =>
    rw [runGraph_eq_error beh _ e hsub]
    refine ⟨by simp, ?_⟩
    simp
  | ok qid =>
    rw [runGraph_eq_ok beh qid sql N hsub]
    have hspec := pollLoop_fetch_spec beh (postSubmitState qid sql N)
    refine ⟨hspec.1, ?_⟩
    rw [hspec.2.1]
    constructor
    · intro hstat
      exact ⟨_, rfl, hstat⟩
    · rintro ⟨fs, hfs, hstat⟩
      simp only [Except.ok.injEq] at hfs
      rw [← hfs] at hstat
      exact hstat

/-- C8: if submission raises, the whole execution fails immediately: the
graph raises the same message, exactly one submission was attempted (no
retry at this layer), zero status checks and zero fetches happen, and for
every payload the hosted entrypoint surfaces the error outcome carrying
the message rather than a timeout. -/
theorem submission_error_propagates_immediately (beh : ClientBehavior)
    (msg sql : String) (N : Nat)
    (hsub : beh.submitResult = .error msg) :
    (runGraph beh (initialState sql N)).outcome = .error msg ∧
    (runGraph beh (initialState sql N)).submitCalls = 1 ∧
    (runGraph beh (initialState sql N)).statusChecks = 0 ∧
    (runGraph beh (initialState sql N)).fetchCalls = 0 ∧
    ∀ (p : Payload) (env : Option Nat),
      invoke beh p env = ⟨"error", none, none, none, some msg⟩ := by
  rw [runGraph_eq_error beh _ msg hsub]
  exact ⟨rfl, rfl, rfl, rfl, fun p env => invoke_submit_error beh msg hsub p env⟩

theorem submission_error_propagates_immediately_witness :
    behSubmitError.submitResult = Except.error "boom" ∧
    (runGraph behSubmitError (initialState "SELECT 1" 7)).statusChecks
      = 0 ∧
    (invoke behSubmitError ⟨some "SELECT 1", none, some 7⟩ none).status
      = "error" ∧
    (invoke behSubmitError ⟨some "SELECT 1", none, some 7⟩ none).error
      = some "boom" := by
  have h := submission_error_propagates_immediately behSubmitError "boom"
    "SELECT 1" 7 rfl
  have hi := h.2.2.2.2 ⟨some "SELECT 1", none, some 7⟩ none
  exact ⟨rfl, h.2.2.1, by rw [hi], by rw [hi]⟩

/-- C9: result materialization is total — node C sets the analysis to
`(len rows, "Retrieved {n} rows", rows)` for every row sequence, empty
included — and whenever the hosted entrypoint answers success, its result
payload is exactly that analysis: the reported row count equals the length
of the returned data, the summary describes that count, and the data is
the fetched row sequence unchanged. -/
theorem success_row_count_equals_data_length (beh : ClientBehavior)
    (p : Payload) (env : Option Nat)
    (hs : (invoke beh p env).status = "success") :
    (∃ n summary rows,
        (invoke beh p env).result = some (n, summary, rows) ∧
        n = rows.length ∧
        summary = "Retrieved " ++ toString rows.length ++ " rows" ∧
        rows = beh.fetchRows) ∧
    ∀ (b : ClientBehavior) (s : AgentState),
      (fetch_athena_results b s).analysis_result =
        some (b.fetchRows.length,
              "Retrieved " ++ toString b.fetchRows.length ++ " rows",
              b.fetchRows) := by
  refine ⟨?_, fun b s => rfl⟩
  cases hsub : beh.submitResult with
  | error e =>
    rw [invoke_submit_error beh e hsub p env] at hs
    simp at hs
  | ok qid =>
    have hout : (runGraph beh (initialState (extractSqlQuery p)
        (extractMaxRetries p env))).outcome =
          .ok (runPollLoop beh (postSubmitState qid (extractSqlQuery p)
            (extractMaxRetries p env))).final := by
      rw [runGraph_eq_ok beh qid (extractSqlQuery p)
        (extractMaxRetries p env) hsub]
    rw [invoke_eq_of_ok beh p env _ hout] at hs ⊢
    have hspec := pollLoop_fetch_spec beh
      (postSubmitState qid (extractSqlQuery p) (extractMaxRetries p env))
    by_cases hstat : (runPollLoop beh (postSubmitState qid
        (extractSqlQuery p) (extractMaxRetries p env))).final.athena_status
          = "SUCCEEDED"
    · rw [if_pos hstat]
      have hana := hspec.2.2 hstat
      exact ⟨beh.fetchRows.length,
        "Retrieved " ++ toString beh.fetchRows.length ++ " rows",
        beh.fetchRows, by simpa using hana, rfl, rfl, rfl⟩
    · rw [if_neg hstat] at hs
      by_cases hstat2 : (runPollLoop beh (postSubmitState qid
          (extractSqlQuery p)
          (extractMaxRetries p env))).final.athena_status = "FAILED"
      · rw [if_pos hstat2] at hs
        simp at hs
      · rw [if_neg hstat2] at hs
        simp at hs

theorem success_row_count_equals_data_length_witness :
    (invoke behEmptySuccess ⟨some "SELECT 1", none, some 2⟩ none).status
      = "success" ∧
    ∃ res, (invoke behEmptySuccess
        ⟨some "SELECT 1", none, some 2⟩ none).result = some res ∧
      res.1 = res.2.2.length := by
  have hs := (invoke_first_success behEmptySuccess "qid-4" rfl rfl
    ⟨some "SELECT 1", none, some 2⟩ none).1
  have h := success_row_count_equals_data_length behEmptySuccess
    ⟨some "SELECT 1", none, some 2⟩ none hs
  obtain ⟨n, summary, rows, hres, hn, -, -⟩ := h.1
  exact ⟨hs, (n, summary, rows), hres, by simpa using hn⟩

/-- C10: at the hosted entrypoint, a missing or falsy (empty-string)
`sql_query` falls back to the payload's `prompt` value when present (even
an empty one), and to the literal `"SELECT * FROM users LIMIT 10"` when
`prompt` is absent; a truthy `sql_query` is used as-is; and a missing
`max_retries` defaults to the parsed `MAX_RETRIES` environment value, or
20 when that is unset. -/
theorem payload_fallback_defaults (p : Payload) (env : Option Nat) :
    ((p.sql_query = none ∨ p.sql_query = some "") →
        ∀ q, p.prompt = some q → extractSqlQuery p = q) ∧
    ((p.sql_query = none ∨ p.sql_query = some "") → p.prompt = none →
        extractSqlQuery p = "SELECT * FROM users LIMIT 10") ∧
    (∀ s, p.sql_query = some s → s ≠ "" → extractSqlQuery p = s) ∧
    (p.max_retries = none → extractMaxRetries p env = env.getD 20) := by
  refine ⟨?_, ?_, ?_, ?_⟩
  · intro hfalsy q hq
    unfold extractSqlQuery
    rcases hfalsy with h | h <;>
      simp [pyTruthy, h, hq]
  · intro hfalsy hq
    unfold extractSqlQuery
    rcases hfalsy with h | h <;>
      simp [pyTruthy, h, hq]
  · intro s hs hne
    unfold extractSqlQuery
    simp [pyTruthy, hs, hne]
  · intro hmr
    unfold extractMaxRetries
    rw [hmr]
    rfl

theorem payload_fallback_defaults_witness :
    extractSqlQuery ⟨some "", some "from prompt", none⟩ = "from prompt" ∧
    extractSqlQuery ⟨none, none, none⟩ = "SELECT * FROM users LIMIT 10" ∧
    extractMaxRetries ⟨some "", some "from prompt", none⟩ (some 7) = 7 := by
  have h1 := payload_fallback_defaults ⟨some "", some "from prompt", none⟩
    (some 7)
  have h2 := payload_fallback_defaults ⟨none, none, none⟩ none
  exact ⟨h1.1 (Or.inr rfl) "from prompt" rfl, h2.2.1 (Or.inl rfl) rfl,
    by have := h1.2.2.2 rfl; simpa using this⟩

theorem get_query_results_none (c : AthenaQuery) (qid : String)
    (hlook : c.queries qid = none) :
    c.get_query_results qid = .error ("Query " ++ qid ++ " not found") := by
  unfold AthenaQuery.get_query_results
  rw [hlook]

theorem get_query_results_some (c : AthenaQuery) (qid : String)
    (q₀ : QueryRec) (hlook : c.queries qid = some q₀) :
    c.get_query_results qid =
      if q₀.status ≠ QueryStatus.SUCCEEDED then
        .error ("Query " ++ qid ++ " not yet completed")
      else
        .ok q₀.results := by
  unfold AthenaQuery.get_query_results
  rw [hlook]

theorem reachable_clientOne : Reachable clientOne :=
  Relation.ReflTransGen.single
    (ClientStep.exec AthenaQuery.init "id1" "SELECT 1" 0 5 rfl)

theorem clientOne_status_call :
    clientOne.get_query_status "id1" 10 = .ok (.SUCCEEDED, clientOneDone) :=
  rfl

theorem reachable_clientOneDone : Reachable clientOneDone :=
  Relation.ReflTransGen.tail reachable_clientOne
    (ClientStep.status clientOne "id1" 10 .SUCCEEDED clientOneDone
      clientOne_status_call)

/-- C6: on every reachable state of the mock client, a job's stored
results are populated exactly when its status is SUCCEEDED (and then they
are the mock rows); `get_query_results` raises the not-found error
exactly on unknown ids and the not-yet-completed error exactly on known
jobs whose status is not SUCCEEDED; on a SUCCEEDED job it returns the
stored row sequence. The operation takes the client immutably and returns
no new state in this embedding — mirroring the source, which only reads —
so repeated calls trivially return the same rows without modifying any
job. -/
theorem results_populated_iff_succeeded (c : AthenaQuery)
    (hreach : Reachable c) :
    (∀ qid, c.queries qid = none →
        c.get_query_results qid
          = .error ("Query " ++ qid ++ " not found")) ∧
    (∀ qid q, c.queries qid = some q → q.status ≠ .SUCCEEDED →
        c.get_query_results qid
          = .error ("Query " ++ qid ++ " not yet completed")) ∧
    (∀ qid q, c.queries qid = some q → q.status = .SUCCEEDED →
        q.results = some mockRows ∧
        c.get_query_results qid = .ok (some mockRows)) ∧
    (∀ qid q, c.queries qid = some q →
        (q.results ≠ none ↔ q.status = .SUCCEEDED)) := by
  have hinv := reachable_inv hreach
  refine ⟨?_, ?_, ?_, ?_⟩
  · intro qid hlook
    exact get_query_results_none c qid hlook
  · intro qid q hlook hstat
    rw [get_query_results_some c qid q hlook, if_pos hstat]
  · intro qid q hlook hstat
    have hres := (hinv qid q hlook).2.1 hstat
    refine ⟨hres, ?_⟩
    rw [get_query_results_some c qid q hlook, if_neg (by simp [hstat]),
      hres]
  · intro qid q hlook
    obtain ⟨hnf, hsome, hnone⟩ := hinv qid q hlook
    cases hq : q.status with
    | RUNNING =>
      simp [hnone hq]
    | SUCCEEDED =>
      simp [hsome hq]
    | FAILED => exact absurd hq hnf

theorem results_populated_iff_succeeded_witness :
    Reachable clientOneDone ∧
    clientOneDone.get_query_results "zzz"
      = .error ("Query " ++ "zzz" ++ " not found") ∧
    clientOneDone.get_query_results "id1" = .ok (some mockRows) := by
  obtain ⟨h1, h2, h3, h4⟩ :=
    results_populated_iff_succeeded clientOneDone reachable_clientOneDone
  exact ⟨reachable_clientOneDone, h1 "zzz" rfl, (h3 "id1" _ rfl rfl).2⟩

/-- C7: a job is stored RUNNING at submission; and on a reachable mock
client, once `get_query_status` has reported a terminal value for some
job id, every later status call on that id — after any further submissions
of fresh ids or status checks, at any wall-clock time, even an earlier
one — reports the same terminal value and never RUNNING again. (On this
mock the reported terminal value is necessarily SUCCEEDED, since nothing
ever stores FAILED.) -/
theorem status_monotone_after_terminal (c : AthenaQuery)
    (hreach : Reachable c) (qid₀ sql : String) (now₀ d : Int)
    {qid : String} {now now' : Int} {st st' : QueryStatus}
    {c' c'' c''' : AthenaQuery}
    (hcall : c.get_query_status qid now = .ok (st, c'))
    (hterm : st ≠ .RUNNING)
    (hsteps : ClientSteps c' c'')
    (hcall' : c''.get_query_status qid now' = .ok (st', c''')) :
    (((c.ExecuteSQL qid₀ sql now₀ d).2.queries qid₀).map QueryRec.status
        = some .RUNNING) ∧
    st' = st ∧ st' ≠ .RUNNING := by
  refine ⟨?_, ?_, ?_⟩
  · simp [AthenaQuery.ExecuteSQL, AthenaQuery.set]
  · obtain ⟨hstS, hstore⟩ :=
      reported_terminal_succeeded hreach hcall hterm
    have hstore'' := succeeded_persists hsteps hstore
    rw [status_call_on_succeeded hstore'' hcall', hstS]
  · obtain ⟨hstS, hstore⟩ :=
      reported_terminal_succeeded hreach hcall hterm
    have hstore'' := succeeded_persists hsteps hstore
    rw [status_call_on_succeeded hstore'' hcall']
    decide

theorem status_monotone_after_terminal_witness :
    Reachable clientOne ∧
    clientOne.get_query_status "id1" 10 = .ok (.SUCCEEDED, clientOneDone) ∧
    clientOneDone.get_query_status "id1" 3
      = .ok (.SUCCEEDED, clientOneDone) ∧
    ∃ r : QueryStatus × AthenaQuery,
      clientOneDone.get_query_status "id1" 3 = .ok r ∧
      r.1 = .SUCCEEDED ∧ r.1 ≠ .RUNNING := by
  have hcall2 : clientOneDone.get_query_status "id1" 3
      = .ok (.SUCCEEDED, clientOneDone) := rfl
  have h := status_monotone_after_terminal clientOne reachable_clientOne
    "id2" "SELECT 2" 0 5 clientOne_status_call (by decide)
    Relation.ReflTransGen.refl hcall2
  exact ⟨reachable_clientOne, clientOne_status_call, hcall2,
    (.SUCCEEDED, clientOneDone), hcall2, h.2.1, h.2.2⟩

end MockAgent
